import Mathlib

/-!
Verification of the nickname-edit workflow (`src/components/my_page/edit_nickname.tsx`)
and the toast notification store (`src/store/toast.ts`) of the repository.

The React component holds six `useState` fields; we embed them as a record.
Event handlers become pure state-transition functions.  Asynchronous API calls
are embedded by splitting an operation into a dispatch step (which records the
request that was sent, if any) and a resolution step parameterised by the
server's response (`Except Unit _` for a call that may throw).
-/

/-- The six `useState` fields of the `EditNickname` component, with the
source's names.  The spec calls them `draftValue` (`newNickname`),
`verified` (`isNicknameVerified`), `pending` (`isLoading`),
`failed` (`isError`), `errorMessage`, and `editing` (`showNicknameEdit`). -/
structure EditState where
  newNickname : String
  isNicknameVerified : Bool
  isLoading : Bool
  isError : Bool
  errorMessage : String
  showNicknameEdit : Bool
  deriving Repr, DecidableEq

/-- Initial values of the six `useState` hooks. -/
def initialEditState : EditState :=
  { newNickname := ""
    isNicknameVerified := false
    isLoading := false
    isError := false
    errorMessage := ""
    showNicknameEdit := false }

/-- The response of `userApi.validateNickname`: `{ exists, message }`.
The field `exists` of the source is rendered `nicknameExists`. -/
structure ValidateNicknameResponse where
  nicknameExists : Bool
  message : String
  deriving Repr, DecidableEq

/-- The `disabled` predicate of the 중복확인 (duplicate-check) button:
`disabled={!newNickname || isNicknameVerified || isLoading}`.  A disabled
button cannot fire its `onClick`, so this is the workflow-level guard of
`validate()`. -/
def validateButtonDisabled (s : EditState) : Bool :=
  s.newNickname == "" || s.isNicknameVerified || s.isLoading

/-- The synchronous part of `handleNicknameCheck` up to the `await`:
the guard `if (!newNickname) return;`, then `setIsLoading(true);
setIsError(false);` and the dispatch of `userApi.validateNickname(newNickname)`.
Returns the new state and the nickname sent to the server (`none` when no
request was dispatched).  The outer `if` is the button's `disabled` guard;
the inner one is the handler's own check. -/
def handleNicknameCheckStart (s : EditState) : EditState × Option String :=
  if validateButtonDisabled s then (s, none)
  else if s.newNickname == "" then (s, none)
  else ({ s with isLoading := true, isError := false }, some s.newNickname)

/-- The continuation of `handleNicknameCheck` after the `await`, applied to the
state at resolution time.  `Except.ok r` is a successful response, `Except.error`
a thrown transport/server error caught by the `catch` block; the `finally`
block runs `setIsLoading(false)` in every branch. -/
def handleNicknameCheckResolve (s : EditState)
    (r : Except Unit ValidateNicknameResponse) : EditState :=
  match r with
  | Except.ok resp =>
      if resp.nicknameExists then
        { s with isError := true, errorMessage := resp.message, isLoading := false }
      else
        { s with isNicknameVerified := true, errorMessage := "", isLoading := false }
  | Except.error _ =>
      { s with isError := true
               errorMessage := "서버 오류가 발생했습니다. 다시 시도해주세요."
               isLoading := false }

/-- A complete run of `handleNicknameCheck` with no interleaved events:
dispatch, then, when a request went out, resolution with the server's
answer `r`. -/
def handleNicknameCheck (s : EditState)
    (r : Except Unit ValidateNicknameResponse) : EditState :=
  match handleNicknameCheckStart s with
  | (s1, some _) => handleNicknameCheckResolve s1 r
  | (s1, none) => s1

/-- Externally observable effects of `handleSave`. -/
inductive SaveEffect where
  | updateCall (v : String)
  | notifyChange (v : String)
  deriving Repr, DecidableEq

/-- `handleSave`: guard `if (!isNicknameVerified) return;`, then
`await userApi.updateNickname(newNickname)`.  On success, `onNicknameChange`
is invoked with the new nickname and the surface closes; on a thrown error the
`catch` block sets `isError` and the commit-specific message.  The effect list
records the external calls made, in order. -/
def handleSave (s : EditState) (updateResult : Except Unit Unit) :
    EditState × List SaveEffect :=
  if !s.isNicknameVerified then (s, [])
  else
    match updateResult with
    | Except.ok _ =>
        ({ s with showNicknameEdit := false },
         [SaveEffect.updateCall s.newNickname, SaveEffect.notifyChange s.newNickname])
    | Except.error _ =>
        ({ s with isError := true, errorMessage := "닉네임 변경에 실패했습니다." },
         [SaveEffect.updateCall s.newNickname])

/-- The 변경하기 (change) button's handler: `() => setShowNicknameEdit(true)`.
It sets only `showNicknameEdit`. -/
def openEdit (s : EditState) : EditState :=
  { s with showNicknameEdit := true }

/-- The nickname input's `onChange`: `setNewNickname(e.target.value)`.  The
input carries `disabled={isLoading || isNicknameVerified}`, so the workflow
can change the draft only outside those states. -/
def setDraft (s : EditState) (v : String) : EditState :=
  if s.isLoading || s.isNicknameVerified then s
  else { s with newNickname := v }

/-- `handleClickOutside`: when a mousedown lands outside the edit box, the
handler closes the surface and clears `isError`, `errorMessage`,
`isNicknameVerified`.  The edit box (and its ref) exists only while
`showNicknameEdit` is true, so the handler's ref check makes the event a
no-op otherwise. -/
def handleClickOutside (s : EditState) : EditState :=
  if s.showNicknameEdit then
    { s with showNicknameEdit := false
             isError := false
             errorMessage := ""
             isNicknameVerified := false }
  else s

/-! ## Toast store (`src/store/toast.ts`) -/

/-- The data fields of the zustand toast store. -/
structure ToastState where
  isVisible : Bool
  message : String
  deriving Repr, DecidableEq

/-- The creation-time state of the store: `isVisible: false, message: ''`. -/
def initialToastState : ToastState :=
  { isVisible := false, message := "" }

/-- `showToast: (message) => set({ isVisible: true, message })`. -/
def showToast (s : ToastState) (m : String) : ToastState :=
  { s with isVisible := true, message := m }

/-- `hideToast: () => set({ isVisible: false, message: '' })`. -/
def hideToast (s : ToastState) : ToastState :=
  { s with isVisible := false, message := "" }

/-- One call into the store's public interface. -/
inductive ToastOp where
  | showOp (m : String)
  | hideOp
  deriving Repr, DecidableEq

/-- Apply one store call. -/
def applyToastOp (s : ToastState) : ToastOp → ToastState
  | ToastOp.showOp m => showToast s m
  | ToastOp.hideOp => hideToast s

/-- Run a sequence of store calls from a given state. -/
def runToastOps (s : ToastState) (ops : List ToastOp) : ToastState :=
  ops.foldl applyToastOp s

/-! ## Theorems -/

/-- C1: while a validation call is pending (`isLoading = true`), a second
invocation of `validate()` is a no-op that dispatches no request, so across
both invocations exactly one existence-check request goes out. -/
theorem validate_no_duplicate_inflight (s : EditState)
    (h1 : s.newNickname ≠ "") (h2 : s.isLoading = false)
    (h3 : s.isNicknameVerified = false) :
    (handleNicknameCheckStart s).2 = some s.newNickname ∧
    handleNicknameCheckStart (handleNicknameCheckStart s).1 =
      ((handleNicknameCheckStart s).1, none) := by
  simp [handleNicknameCheckStart, validateButtonDisabled, h1, h2, h3]

/-- Witness for C1 at the state reached by opening the editor and typing
`alice`. -/
theorem validate_no_duplicate_inflight_witness :
    (handleNicknameCheckStart
        { initialEditState with newNickname := "alice", showNicknameEdit := true }).2 =
      some "alice" ∧
    handleNicknameCheckStart
        (handleNicknameCheckStart
          { initialEditState with newNickname := "alice", showNicknameEdit := true }).1 =
      ((handleNicknameCheckStart
          { initialEditState with newNickname := "alice", showNicknameEdit := true }).1,
       none) :=
  validate_no_duplicate_inflight
    { initialEditState with newNickname := "alice", showNicknameEdit := true }
    (by decide) rfl rfl

/-- C2: under the guard (non-empty draft, not pending, not verified), a
validation run ends with: `exists = true` ⇒ `isError = true`, the server's
message, and `isNicknameVerified = false`; `exists = false` ⇒
`isNicknameVerified = true` and `isError = false`; a thrown error ⇒
`isError = true` with the generic message. -/
theorem validate_outcomes (s : EditState) (m : String)
    (h1 : s.newNickname ≠ "") (h2 : s.isLoading = false)
    (h3 : s.isNicknameVerified = false) :
    ((handleNicknameCheck s (Except.ok ⟨true, m⟩)).isError = true ∧
     (handleNicknameCheck s (Except.ok ⟨true, m⟩)).errorMessage = m ∧
     (handleNicknameCheck s (Except.ok ⟨true, m⟩)).isNicknameVerified = false) ∧
    ((handleNicknameCheck s (Except.ok ⟨false, m⟩)).isNicknameVerified = true ∧
     (handleNicknameCheck s (Except.ok ⟨false, m⟩)).isError = false) ∧
    ((handleNicknameCheck s (Except.error ())).isError = true ∧
     (handleNicknameCheck s (Except.error ())).errorMessage =
       "서버 오류가 발생했습니다. 다시 시도해주세요.") := by
  simp [handleNicknameCheck, handleNicknameCheckStart, handleNicknameCheckResolve,
        validateButtonDisabled, h1, h2, h3]

/-- Witness for C2 at the draft `bob` and server message
`이미 사용중인 닉네임입니다.`. -/
theorem validate_outcomes_witness :
    (((handleNicknameCheck { initialEditState with newNickname := "bob" }
          (Except.ok ⟨true, "이미 사용중인 닉네임입니다."⟩)).isError = true ∧
      (handleNicknameCheck { initialEditState with newNickname := "bob" }
          (Except.ok ⟨true, "이미 사용중인 닉네임입니다."⟩)).errorMessage =
        "이미 사용중인 닉네임입니다." ∧
      (handleNicknameCheck { initialEditState with newNickname := "bob" }
          (Except.ok ⟨true, "이미 사용중인 닉네임입니다."⟩)).isNicknameVerified = false) ∧
     ((handleNicknameCheck { initialEditState with newNickname := "bob" }
          (Except.ok ⟨false, "이미 사용중인 닉네임입니다."⟩)).isNicknameVerified = true ∧
      (handleNicknameCheck { initialEditState with newNickname := "bob" }
          (Except.ok ⟨false, "이미 사용중인 닉네임입니다."⟩)).isError = false) ∧
     ((handleNicknameCheck { initialEditState with newNickname := "bob" }
          (Except.error ())).isError = true ∧
      (handleNicknameCheck { initialEditState with newNickname := "bob" }
          (Except.error ())).errorMessage =
        "서버 오류가 발생했습니다. 다시 시도해주세요.")) :=
  validate_outcomes { initialEditState with newNickname := "bob" }
    "이미 사용중인 닉네임입니다." (by decide) rfl rfl

/-- C3 counterexample: along the reachable run
open → type `bob` → outside click → open again, the state right after the
second `open()` has `editing = true` but `draftValue = "bob" ≠ ""`:
the open handler is `() => setShowNicknameEdit(true)` and clears nothing. -/
theorem open_does_not_clear_draft :
    (openEdit (handleClickOutside (setDraft (openEdit initialEditState) "bob"))).showNicknameEdit
      = true ∧
    (openEdit (handleClickOutside (setDraft (openEdit initialEditState) "bob"))).newNickname
      ≠ "" := by
  decide

/-- C3 amended: `open()` sets `editing = true` and leaves every other field
(`draftValue`, `verified`, `failed`, `errorMessage`, `pending`) unchanged. -/
theorem openEdit_sets_only_editing (s : EditState) :
    (openEdit s).showNicknameEdit = true ∧
    (openEdit s).newNickname = s.newNickname ∧
    (openEdit s).isNicknameVerified = s.isNicknameVerified ∧
    (openEdit s).isError = s.isError ∧
    (openEdit s).errorMessage = s.errorMessage ∧
    (openEdit s).isLoading = s.isLoading := by
  simp [openEdit]

/-- C4: from a verified state, a successful commit calls `updateNickname`
with the draft value, notifies `onNicknameChange` with that value exactly
once, and closes the edit surface. -/
theorem commit_success (s : EditState) (h : s.isNicknameVerified = true) :
    handleSave s (Except.ok ()) =
      ({ s with showNicknameEdit := false },
       [SaveEffect.updateCall s.newNickname, SaveEffect.notifyChange s.newNickname]) ∧
    (handleSave s (Except.ok ())).2.count (SaveEffect.notifyChange s.newNickname) = 1 := by
  simp [handleSave, h, List.count_cons]

/-- Witness for C4 at the verified state with draft `alice`. -/
theorem commit_success_witness :
    handleSave
        { initialEditState with newNickname := "alice", isNicknameVerified := true,
                                showNicknameEdit := true }
        (Except.ok ()) =
      ({ { initialEditState with newNickname := "alice", isNicknameVerified := true,
                                 showNicknameEdit := true } with showNicknameEdit := false },
       [SaveEffect.updateCall "alice", SaveEffect.notifyChange "alice"]) ∧
    (handleSave
        { initialEditState with newNickname := "alice", isNicknameVerified := true,
                                showNicknameEdit := true }
        (Except.ok ())).2.count (SaveEffect.notifyChange "alice") = 1 :=
  commit_success
    { initialEditState with newNickname := "alice", isNicknameVerified := true,
                            showNicknameEdit := true } rfl

/-- C5: from a verified, open state, a failed commit sets `failed = true`
with the commit-specific message and the surface stays open. -/
theorem commit_failure_sets_error (s : EditState)
    (h : s.isNicknameVerified = true) (he : s.showNicknameEdit = true) :
    (handleSave s (Except.error ())).1.isError = true ∧
    (handleSave s (Except.error ())).1.errorMessage = "닉네임 변경에 실패했습니다." ∧
    (handleSave s (Except.error ())).1.showNicknameEdit = true := by
  simp [handleSave, h, he]

/-- Witness for C5 at the verified state with draft `alice`. -/
theorem commit_failure_sets_error_witness :
    (handleSave
        { initialEditState with newNickname := "alice", isNicknameVerified := true,
                                showNicknameEdit := true }
        (Except.error ())).1.isError = true ∧
    (handleSave
        { initialEditState with newNickname := "alice", isNicknameVerified := true,
                                showNicknameEdit := true }
        (Except.error ())).1.errorMessage = "닉네임 변경에 실패했습니다." ∧
    (handleSave
        { initialEditState with newNickname := "alice", isNicknameVerified := true,
                                showNicknameEdit := true }
        (Except.error ())).1.showNicknameEdit = true :=
  commit_failure_sets_error
    { initialEditState with newNickname := "alice", isNicknameVerified := true,
                            showNicknameEdit := true } rfl rfl

/-- C6: with `verified = false`, `commit()` returns the state unchanged and
makes no external call, whatever the environment would have answered. -/
theorem commit_noop_unverified (s : EditState) (r : Except Unit Unit)
    (h : s.isNicknameVerified = false) :
    handleSave s r = (s, []) := by
  simp [handleSave, h]

/-- Witness for C6 at an unverified state with draft `bob`. -/
theorem commit_noop_unverified_witness :
    handleSave { initialEditState with newNickname := "bob", showNicknameEdit := true }
        (Except.ok ()) =
      ({ initialEditState with newNickname := "bob", showNicknameEdit := true }, []) :=
  commit_noop_unverified
    { initialEditState with newNickname := "bob", showNicknameEdit := true }
    (Except.ok ()) rfl

/-- C7: an outside click while the surface is open closes it and clears
`failed`, `errorMessage` and `verified`, whatever their prior values. -/
theorem outside_click_resets (s : EditState) (h : s.showNicknameEdit = true) :
    (handleClickOutside s).showNicknameEdit = false ∧
    (handleClickOutside s).isError = false ∧
    (handleClickOutside s).errorMessage = "" ∧
    (handleClickOutside s).isNicknameVerified = false := by
  simp [handleClickOutside, h]

/-- Witness for C7 at an open state carrying an error and a verified flag. -/
theorem outside_click_resets_witness :
    (handleClickOutside
        { initialEditState with newNickname := "bob", isNicknameVerified := true,
                                isError := true, errorMessage := "x",
                                showNicknameEdit := true }).showNicknameEdit = false ∧
    (handleClickOutside
        { initialEditState with newNickname := "bob", isNicknameVerified := true,
                                isError := true, errorMessage := "x",
                                showNicknameEdit := true }).isError = false ∧
    (handleClickOutside
        { initialEditState with newNickname := "bob", isNicknameVerified := true,
                                isError := true, errorMessage := "x",
                                showNicknameEdit := true }).errorMessage = "" ∧
    (handleClickOutside
        { initialEditState with newNickname := "bob", isNicknameVerified := true,
                                isError := true, errorMessage := "x",
                                showNicknameEdit := true }).isNicknameVerified = false :=
  outside_click_resets
    { initialEditState with newNickname := "bob", isNicknameVerified := true,
                            isError := true, errorMessage := "x",
                            showNicknameEdit := true } rfl

/-- C10: a failed commit changes only `failed` and `errorMessage`: the draft,
the verified flag, the pending flag and the surface flag are unchanged, so a
retry commit immediately succeeds with the same value and no re-validation. -/
theorem commit_failure_frame (s : EditState) (h : s.isNicknameVerified = true) :
    (handleSave s (Except.error ())).1.isNicknameVerified = true ∧
    (handleSave s (Except.error ())).1.newNickname = s.newNickname ∧
    (handleSave s (Except.error ())).1.showNicknameEdit = s.showNicknameEdit ∧
    (handleSave s (Except.error ())).1.isLoading = s.isLoading ∧
    (handleSave (handleSave s (Except.error ())).1 (Except.ok ())).2 =
      [SaveEffect.updateCall s.newNickname, SaveEffect.notifyChange s.newNickname] := by
  simp [handleSave, h]

/-- Witness for C10 at the verified state with draft `alice`. -/
theorem commit_failure_frame_witness :
    (handleSave
        { initialEditState with newNickname := "alice", isNicknameVerified := true,
                                showNicknameEdit := true }
        (Except.error ())).1.isNicknameVerified = true ∧
    (handleSave
        { initialEditState with newNickname := "alice", isNicknameVerified := true,
                                showNicknameEdit := true }
        (Except.error ())).1.newNickname = "alice" ∧
    (handleSave
        { initialEditState with newNickname := "alice", isNicknameVerified := true,
                                showNicknameEdit := true }
        (Except.error ())).1.showNicknameEdit = true ∧
    (handleSave
        { initialEditState with newNickname := "alice", isNicknameVerified := true,
                                showNicknameEdit := true }
        (Except.error ())).1.isLoading = false ∧
    (handleSave
        (handleSave
          { initialEditState with newNickname := "alice", isNicknameVerified := true,
                                  showNicknameEdit := true }
          (Except.error ())).1 (Except.ok ())).2 =
      [SaveEffect.updateCall "alice", SaveEffect.notifyChange "alice"] :=
  commit_failure_frame
    { initialEditState with newNickname := "alice", isNicknameVerified := true,
                            showNicknameEdit := true } rfl

/-- C8: any non-empty sequence of `showToast` calls, run from any prior store
state, leaves `isVisible = true` and `message` equal to the last shown
message; in particular a second show overwrites the first. -/
theorem showToast_last_write_wins (s : ToastState) (ms : List String) (m : String) :
    ((ms ++ [m]).foldl showToast s).isVisible = true ∧
    ((ms ++ [m]).foldl showToast s).message = m := by
  simp [List.foldl_append, showToast]

/-- Invariant of C9: a hidden toast carries the empty message. -/
def toastHiddenEmpty (s : ToastState) : Prop :=
  s.isVisible = false → s.message = ""

/-- Each store call preserves the hidden-implies-empty invariant. -/
theorem applyToastOp_preserves_inv (s : ToastState) (op : ToastOp)
    (_h : toastHiddenEmpty s) : toastHiddenEmpty (applyToastOp s op) := by
  cases op <;> simp [applyToastOp, showToast, hideToast, toastHiddenEmpty]

/-- Any run of store calls preserves the hidden-implies-empty invariant. -/
theorem runToastOps_preserves_inv (s : ToastState) (ops : List ToastOp)
    (h : toastHiddenEmpty s) : toastHiddenEmpty (runToastOps s ops) := by
  induction ops generalizing s with
  | nil => exact h
  | cons op rest ih => exact ih (applyToastOp s op) (applyToastOp_preserves_inv s op h)

/-- C9: in every store state reachable from the initial state by `showToast`
and `hideToast` calls, a hidden toast has the empty message. -/
theorem toast_hidden_implies_empty (ops : List ToastOp)
    (h : (runToastOps initialToastState ops).isVisible = false) :
    (runToastOps initialToastState ops).message = "" :=
  runToastOps_preserves_inv initialToastState ops (fun _ => rfl) h

/-- Witness for C9 after a show followed by a hide. -/
theorem toast_hidden_implies_empty_witness :
    (runToastOps initialToastState
        [ToastOp.showOp "저장되었습니다.", ToastOp.hideOp]).isVisible = false ∧
    (runToastOps initialToastState
        [ToastOp.showOp "저장되었습니다.", ToastOp.hideOp]).message = "" :=
  ⟨rfl, toast_hidden_implies_empty [ToastOp.showOp "저장되었습니다.", ToastOp.hideOp] rfl⟩
